import Mathlib

/-!
Shallow embedding of the `code_coverage_sensor` C layer of fuzzcheck-rs:
`c_builtins.c`, `instrumentation_pointers_linux.c` and
`instrumentation_pointers_mac.c`. Addresses are modelled as natural
numbers; a call stack is the list of return addresses of the live frames,
innermost frame first.
-/

abbrev Addr := Nat

abbrev CallStack := List Addr

/-- Modelled from the spec: the compiler intrinsic `__builtin_return_address`,
whose implementation is not part of this repository. Executed inside a
function whose live frame stack (innermost return address first) is `s`, it
yields the return address recorded `level` frames up; when the requested
level runs past the top of the stack, or on a platform that cannot walk
frames, it yields the sentinel 0. -/
def builtin_return_address (s : CallStack) (level : Nat) : Addr :=
  (s.drop level).headD 0

/-- Embedding of `return_address` from `c_builtins.c`. The C function takes
no arguments; its whole body is `return __builtin_return_address(1);`. It
executes in a fresh frame whose own return address `ra` (an address inside
the calling function) sits on top of the stack `callerStack` of the caller. -/
def return_address (ra : Addr) (callerStack : CallStack) : Addr :=
  builtin_return_address (ra :: callerStack) 1

/-- Modelled from the spec: the Frame Inspector contract
`return_address_of(level)` of the spec, executed from a frame whose own
return address is `ra` on top of `callerStack`. Level 0 yields the address
execution will resume at in the immediately enclosing function (that is,
`ra`); level n yields the same for the n-th ancestor caller. -/
def return_address_of (level : Nat) (ra : Addr) (callerStack : CallStack) : Addr :=
  builtin_return_address (ra :: callerStack) level

/-- The linker-determined layout of the two instrumentation sections of the
loaded image: first and one-past-last addresses of the counters section
`__llvm_prf_cnts` and of the metadata section `__llvm_prf_data`. -/
structure SectionLayout where
  cntsStart : Addr
  cntsEnd : Addr
  dataStart : Addr
  dataEnd : Addr
  deriving DecidableEq

/-- Link-time environment of `instrumentation_pointers_linux.c`: the
addresses of the four extern boundary symbols it declares,
`__start___llvm_prf_cnts`, `__stop___llvm_prf_cnts`,
`__start___llvm_prf_data` and `__stop___llvm_prf_data`. -/
structure LinuxGlobals where
  start_prf_cnts_sym : Addr
  stop_prf_cnts_sym : Addr
  start_prf_data_sym : Addr
  stop_prf_data_sym : Addr
  deriving DecidableEq

/-- Link-time environment of `instrumentation_pointers_mac.c`: the addresses
of the four extern symbols `CountersStart`, `CountersEnd`, `PrfDataStart`
and `PrfDataEnd`, bound by asm labels to the Mach-O
`section$start$__DATA$__llvm_prf_cnts` style boundary symbols. -/
structure MacGlobals where
  CountersStart_sym : Addr
  CountersEnd_sym : Addr
  PrfDataStart_sym : Addr
  PrfDataEnd_sym : Addr
  deriving DecidableEq

/-- Modelled from the spec: the ELF linker synthesizes `__start_<sec>` and
`__stop_<sec>` at the first and one-past-last addresses of section `<sec>`;
applied to `__llvm_prf_cnts` and `__llvm_prf_data` this resolves the four
extern symbols of the Linux variant. -/
def resolveLinux (L : SectionLayout) : LinuxGlobals :=
  ⟨L.cntsStart, L.cntsEnd, L.dataStart, L.dataEnd⟩

/-- Modelled from the spec: the Mach-O toolchain resolves the
segment-qualified `section$start$__DATA$<sec>` and `section$end$__DATA$<sec>`
references of the mac variant to the first and one-past-last addresses of
the same two sections. -/
def resolveMac (L : SectionLayout) : MacGlobals :=
  ⟨L.cntsStart, L.cntsEnd, L.dataStart, L.dataEnd⟩

namespace Linux

/-- Embedding of `get_start_prf_data` from `instrumentation_pointers_linux.c`:
`return &__start___llvm_prf_data;`. -/
def get_start_prf_data (g : LinuxGlobals) : Addr := g.start_prf_data_sym

/-- Embedding of `get_end_prf_data`: `return &__stop___llvm_prf_data;`. -/
def get_end_prf_data (g : LinuxGlobals) : Addr := g.stop_prf_data_sym

/-- Embedding of `get_start_instrumentation_counters`:
`return &__start___llvm_prf_cnts;`. -/
def get_start_instrumentation_counters (g : LinuxGlobals) : Addr :=
  g.start_prf_cnts_sym

/-- Embedding of `get_end_instrumentation_counters`:
`return &__stop___llvm_prf_cnts;`. -/
def get_end_instrumentation_counters (g : LinuxGlobals) : Addr :=
  g.stop_prf_cnts_sym

/-- Embedding of `extern int __llvm_profile_runtime = 0;` in
`instrumentation_pointers_linux.c`. -/
def llvm_profile_runtime_flag : Int := 0

end Linux

namespace Mac

/-- Embedding of `get_start_instrumentation_counters` from
`instrumentation_pointers_mac.c`: `return &CountersStart;`. -/
def get_start_instrumentation_counters (g : MacGlobals) : Addr :=
  g.CountersStart_sym

/-- Embedding of `get_end_instrumentation_counters`: `return &CountersEnd;`. -/
def get_end_instrumentation_counters (g : MacGlobals) : Addr :=
  g.CountersEnd_sym

/-- Embedding of `get_start_prf_data`: `return &PrfDataStart;`. -/
def get_start_prf_data (g : MacGlobals) : Addr := g.PrfDataStart_sym

/-- Embedding of `get_end_prf_data`: `return &PrfDataEnd;`. -/
def get_end_prf_data (g : MacGlobals) : Addr := g.PrfDataEnd_sym

/-- Embedding of `extern int __llvm_profile_runtime = 0;` in
`instrumentation_pointers_mac.c`. -/
def llvm_profile_runtime_flag : Int := 0

end Mac

/-- Width in bytes of one counter element: the counters sections are declared
as `unsigned long int` data, the platform word size on the LP64 targets of
the two variants. -/
def wordSize : Nat := 8

/-- Modelled from the spec: what proper instrumentation of the binary
guarantees about the linker layout. The counters section is a contiguous
array of word-sized counters, so its extent is a whole number of words, and
the metadata section is a contiguous byte range, so its end boundary lies at
or after its start boundary. -/
def ProperlyInstrumented (L : SectionLayout) : Prop :=
  (∃ n : Nat, L.cntsEnd = L.cntsStart + wordSize * n) ∧ L.dataStart ≤ L.dataEnd

/-- The SectionLocator interface of the spec, stated in the words of the
spec for the refinement claim: four accessor operations from the
linker-determined section layout to addresses. -/
structure SectionLocator where
  start_counters : SectionLayout → Addr
  end_counters : SectionLayout → Addr
  start_metadata : SectionLayout → Addr
  end_metadata : SectionLayout → Addr

/-- The Linux variant packaged as an implementation of the interface. -/
def linuxLocator : SectionLocator :=
  ⟨fun L => Linux.get_start_instrumentation_counters (resolveLinux L),
   fun L => Linux.get_end_instrumentation_counters (resolveLinux L),
   fun L => Linux.get_start_prf_data (resolveLinux L),
   fun L => Linux.get_end_prf_data (resolveLinux L)⟩

/-- The mac variant packaged as an implementation of the interface. -/
def macLocator : SectionLocator :=
  ⟨fun L => Mac.get_start_instrumentation_counters (resolveMac L),
   fun L => Mac.get_end_instrumentation_counters (resolveMac L),
   fun L => Mac.get_start_prf_data (resolveMac L),
   fun L => Mac.get_end_prf_data (resolveMac L)⟩

/-- Observable process state for the effect claims: the fixed section layout
of the loaded image, the mutable contents of the counter region (written by
instrumented target code, never by this layer) and the calling thread frame
stack. -/
structure ProcState where
  layout : SectionLayout
  counterContents : List Nat
  frames : CallStack

/-- State-passing semantics of a call to the Linux
`get_start_instrumentation_counters`: the body is a single read of a
link-time address and a return, with no write to any state. -/
def run_linux_start_counters (s : ProcState) : Addr × ProcState :=
  (Linux.get_start_instrumentation_counters (resolveLinux s.layout), s)

/-- State-passing semantics of the Linux `get_end_instrumentation_counters`. -/
def run_linux_end_counters (s : ProcState) : Addr × ProcState :=
  (Linux.get_end_instrumentation_counters (resolveLinux s.layout), s)

/-- State-passing semantics of the Linux `get_start_prf_data`. -/
def run_linux_start_data (s : ProcState) : Addr × ProcState :=
  (Linux.get_start_prf_data (resolveLinux s.layout), s)

/-- State-passing semantics of the Linux `get_end_prf_data`. -/
def run_linux_end_data (s : ProcState) : Addr × ProcState :=
  (Linux.get_end_prf_data (resolveLinux s.layout), s)

/-- State-passing semantics of the mac `get_start_instrumentation_counters`. -/
def run_mac_start_counters (s : ProcState) : Addr × ProcState :=
  (Mac.get_start_instrumentation_counters (resolveMac s.layout), s)

/-- State-passing semantics of the mac `get_end_instrumentation_counters`. -/
def run_mac_end_counters (s : ProcState) : Addr × ProcState :=
  (Mac.get_end_instrumentation_counters (resolveMac s.layout), s)

/-- State-passing semantics of the mac `get_start_prf_data`. -/
def run_mac_start_data (s : ProcState) : Addr × ProcState :=
  (Mac.get_start_prf_data (resolveMac s.layout), s)

/-- State-passing semantics of the mac `get_end_prf_data`. -/
def run_mac_end_data (s : ProcState) : Addr × ProcState :=
  (Mac.get_end_prf_data (resolveMac s.layout), s)

/-- State-passing semantics of a call to `return_address`: a pure
inspection of the calling thread frame stack, `ra` being the return address
of the call itself. -/
def run_return_address (ra : Addr) (s : ProcState) : Addr × ProcState :=
  (return_address ra s.frames, s)

/-! Theorems settling the claims. -/

/-- C1 fails as stated: the exported Frame Inspector `return_address` takes
no level argument, and on the concrete stack below it does not return what
the claimed contract assigns to level 0 (the address execution resumes at in
the immediately enclosing function, here 5): it returns 10, the return
address of its caller. -/
theorem c1_no_level_argument_counterexample :
    return_address 5 [10, 20] ≠ return_address_of 0 5 [10, 20] := by decide

/-- C1 amended: `return_address` takes no level argument; it is hard-wired
to `__builtin_return_address(1)`, so it always behaves as the contract at
the fixed level 1, returning the return address of its immediately enclosing
caller. -/
theorem return_address_is_fixed_level_one (ra : Addr) (s : CallStack) :
    return_address ra s = return_address_of 1 ra s ∧
      return_address ra s = builtin_return_address s 0 := ⟨rfl, rfl⟩

/-- C2: whenever the requested frame level exceeds the live stack depth, the
Frame Inspector contract yields the sentinel 0, and the exported
`return_address` called at the top of the stack yields the sentinel 0; the
operations always yield a value and no other failure. -/
theorem frame_overflow_returns_sentinel (level ra : Nat) (s : CallStack)
    (h : s.length < level) :
    return_address_of level ra s = 0 ∧ return_address ra [] = 0 := by
  refine ⟨?_, rfl⟩
  unfold return_address_of builtin_return_address
  rw [List.drop_eq_nil_of_le (by simpa using h)]
  rfl

/-- Witness for C2 at level 3 on a stack of depth 1. -/
theorem frame_overflow_returns_sentinel_witness :
    return_address_of 3 5 [10] = 0 ∧ return_address 5 [] = 0 :=
  frame_overflow_returns_sentinel 3 5 [10] (by decide)

/-- C3: each of the four accessors, in each of the two variants, returns the
address of its corresponding linker-synthesized section boundary symbol:
start and one-past-end of `__llvm_prf_cnts` for the counter accessors, start
and one-past-end of `__llvm_prf_data` for the metadata accessors. -/
theorem accessors_return_section_boundaries (L : SectionLayout) :
    Linux.get_start_instrumentation_counters (resolveLinux L) = L.cntsStart ∧
    Linux.get_end_instrumentation_counters (resolveLinux L) = L.cntsEnd ∧
    Linux.get_start_prf_data (resolveLinux L) = L.dataStart ∧
    Linux.get_end_prf_data (resolveLinux L) = L.dataEnd ∧
    Mac.get_start_instrumentation_counters (resolveMac L) = L.cntsStart ∧
    Mac.get_end_instrumentation_counters (resolveMac L) = L.cntsEnd ∧
    Mac.get_start_prf_data (resolveMac L) = L.dataStart ∧
    Mac.get_end_prf_data (resolveMac L) = L.dataEnd :=
  ⟨rfl, rfl, rfl, rfl, rfl, rfl, rfl, rfl⟩

/-- C4: for every section accessor of either variant, two successive calls
within one process run return the identical address; in particular the
counters start accessor called twice returns the same address both times. -/
theorem accessors_idempotent (s : ProcState) :
    (run_linux_start_counters (run_linux_start_counters s).2).1 =
      (run_linux_start_counters s).1 ∧
    (run_linux_end_counters (run_linux_end_counters s).2).1 =
      (run_linux_end_counters s).1 ∧
    (run_linux_start_data (run_linux_start_data s).2).1 =
      (run_linux_start_data s).1 ∧
    (run_linux_end_data (run_linux_end_data s).2).1 =
      (run_linux_end_data s).1 ∧
    (run_mac_start_counters (run_mac_start_counters s).2).1 =
      (run_mac_start_counters s).1 ∧
    (run_mac_end_counters (run_mac_end_counters s).2).1 =
      (run_mac_end_counters s).1 ∧
    (run_mac_start_data (run_mac_start_data s).2).1 =
      (run_mac_start_data s).1 ∧
    (run_mac_end_data (run_mac_end_data s).2).1 =
      (run_mac_end_data s).1 :=
  ⟨rfl, rfl, rfl, rfl, rfl, rfl, rfl, rfl⟩

/-- C5: in a properly instrumented binary, for each of the two regions and
in both variants, the address returned by the start accessor is at most the
address returned by the end accessor. -/
theorem region_start_le_end (L : SectionLayout) (h : ProperlyInstrumented L) :
    Linux.get_start_instrumentation_counters (resolveLinux L) ≤
      Linux.get_end_instrumentation_counters (resolveLinux L) ∧
    Linux.get_start_prf_data (resolveLinux L) ≤
      Linux.get_end_prf_data (resolveLinux L) ∧
    Mac.get_start_instrumentation_counters (resolveMac L) ≤
      Mac.get_end_instrumentation_counters (resolveMac L) ∧
    Mac.get_start_prf_data (resolveMac L) ≤
      Mac.get_end_prf_data (resolveMac L) := by
  obtain ⟨⟨n, hn⟩, hd⟩ := h
  have hc : L.cntsStart ≤ L.cntsEnd := by
    rw [hn]; exact Nat.le_add_right _ _
  exact ⟨hc, hd, hc, hd⟩

/-- Witness for C5 on a concrete properly instrumented layout. -/
theorem region_start_le_end_witness :
    ProperlyInstrumented (SectionLayout.mk 0 16 100 120) ∧
      (Linux.get_start_instrumentation_counters
          (resolveLinux (SectionLayout.mk 0 16 100 120)) ≤
        Linux.get_end_instrumentation_counters
          (resolveLinux (SectionLayout.mk 0 16 100 120))) :=
  ⟨⟨⟨2, by decide⟩, by decide⟩,
    (region_start_le_end (SectionLayout.mk 0 16 100 120)
      ⟨⟨2, by decide⟩, by decide⟩).1⟩

/-- C6: in a properly instrumented binary the byte difference between the
end and the start of the counters region is a multiple of the counter
element width, the platform word size, in both variants. -/
theorem counters_extent_word_multiple (L : SectionLayout)
    (h : ProperlyInstrumented L) :
    wordSize ∣ (Linux.get_end_instrumentation_counters (resolveLinux L) -
      Linux.get_start_instrumentation_counters (resolveLinux L)) ∧
    wordSize ∣ (Mac.get_end_instrumentation_counters (resolveMac L) -
      Mac.get_start_instrumentation_counters (resolveMac L)) := by
  obtain ⟨⟨n, hn⟩, -⟩ := h
  have hc : wordSize ∣ (L.cntsEnd - L.cntsStart) := by
    rw [hn, Nat.add_sub_cancel_left]
    exact ⟨n, rfl⟩
  exact ⟨hc, hc⟩

/-- Witness for C6 on a concrete properly instrumented layout. -/
theorem counters_extent_word_multiple_witness :
    ProperlyInstrumented (SectionLayout.mk 8 40 200 200) ∧
      wordSize ∣ (Linux.get_end_instrumentation_counters
          (resolveLinux (SectionLayout.mk 8 40 200 200)) -
        Linux.get_start_instrumentation_counters
          (resolveLinux (SectionLayout.mk 8 40 200 200))) :=
  ⟨⟨⟨4, by decide⟩, by decide⟩,
    (counters_extent_word_multiple (SectionLayout.mk 8 40 200 200)
      ⟨⟨4, by decide⟩, by decide⟩).1⟩

/-- C7: both platform variants define the profiling runtime enablement flag
`__llvm_profile_runtime` and set it to zero, disabling automatic
self-registration of the profiling runtime in any build containing either
variant. -/
theorem profile_runtime_flag_is_zero :
    Linux.llvm_profile_runtime_flag = 0 ∧ Mac.llvm_profile_runtime_flag = 0 :=
  ⟨rfl, rfl⟩

/-- C8: the two variants implement one SectionLocator interface and are
interchangeable: on every section layout the four operations of the Linux
implementation agree with the four operations of the mac implementation, and
the two packaged implementations are equal. -/
theorem locator_variants_interchangeable (L : SectionLayout) :
    linuxLocator.start_counters L = macLocator.start_counters L ∧
    linuxLocator.end_counters L = macLocator.end_counters L ∧
    linuxLocator.start_metadata L = macLocator.start_metadata L ∧
    linuxLocator.end_metadata L = macLocator.end_metadata L ∧
    linuxLocator = macLocator :=
  ⟨rfl, rfl, rfl, rfl, rfl⟩

/-- C9: every operation of the layer is side-effect-free: in the
state-passing semantics each of the eight section accessors and the Frame
Inspector leaves the entire process state unchanged. -/
theorem operations_side_effect_free (s : ProcState) (ra : Addr) :
    (run_linux_start_counters s).2 = s ∧
    (run_linux_end_counters s).2 = s ∧
    (run_linux_start_data s).2 = s ∧
    (run_linux_end_data s).2 = s ∧
    (run_mac_start_counters s).2 = s ∧
    (run_mac_end_counters s).2 = s ∧
    (run_mac_start_data s).2 = s ∧
    (run_mac_end_data s).2 = s ∧
    (run_return_address ra s).2 = s :=
  ⟨rfl, rfl, rfl, rfl, rfl, rfl, rfl, rfl, rfl⟩

/-- C10: every exported operation is total with no precondition: on every
process state each section accessor and the Frame Inspector evaluates to a
definite result value, without touching the state. -/
theorem operations_total (s : ProcState) (ra : Addr) :
    (∃ v, run_linux_start_counters s = (v, s)) ∧
    (∃ v, run_linux_end_counters s = (v, s)) ∧
    (∃ v, run_linux_start_data s = (v, s)) ∧
    (∃ v, run_linux_end_data s = (v, s)) ∧
    (∃ v, run_mac_start_counters s = (v, s)) ∧
    (∃ v, run_mac_end_counters s = (v, s)) ∧
    (∃ v, run_mac_start_data s = (v, s)) ∧
    (∃ v, run_mac_end_data s = (v, s)) ∧
    (∃ v, run_return_address ra s = (v, s)) :=
  ⟨⟨_, rfl⟩, ⟨_, rfl⟩, ⟨_, rfl⟩, ⟨_, rfl⟩, ⟨_, rfl⟩, ⟨_, rfl⟩, ⟨_, rfl⟩,
    ⟨_, rfl⟩, ⟨_, rfl⟩⟩
